import Mathlib

/-
Verification of the Molecular Data Explorer (src/app.py) against its
natural-language specification.

The app is a thin orchestration layer over remote JSON endpoints.  We embed
the JSON/Python value universe as an inductive type `PyVal` and translate each
fetcher function of app.py into a Lean function over it.  Remote responses are
passed in as explicit parameters: `Except Unit PyVal` for the calls whose
exceptions are swallowed by a blanket `except`, and `Except String _` for the
calls inside `render_3d`, whose exception detail string is surfaced to the
user.  An operation of the Python code that can raise is modelled as an
`Option`-valued function, `none` standing for a raised exception; each fetcher
then maps `none` to the fallback value of its `except` branch, exactly as the
source does.

Python numbers (int and float) are modelled as exact rationals.  Python dicts
produced by `json.loads` have string keys and are modelled as association
lists; lists as `List PyVal`.
-/

namespace MolExplorer

/-- JSON/Python values as returned by `res.json()` in app.py: None, booleans,
numbers (modelled exactly as rationals, with ints kept separate because
Python `int(...)` and `float(...)` behave differently on them), strings,
lists and string-keyed dicts. -/
inductive PyVal where
  | vNone
  | vBool (b : Bool)
  | vInt (n : Int)
  | vNum (q : Rat)
  | vStr (s : String)
  | vArr (xs : List PyVal)
  | vObj (kvs : List (String × PyVal))

open PyVal

/-- Python truthiness (`if x:` and `x or y`): None, False, zero, the empty
string, the empty list and the empty dict are falsy, everything else truthy. -/
def pyTruthy : PyVal → Bool
  | vNone => false
  | vBool b => b
  | vInt n => n != 0
  | vNum q => q != 0
  | vStr s => s != ""
  | vArr [] => false
  | vArr (_ :: _) => true
  | vObj [] => false
  | vObj (_ :: _) => true

/-- Python `x or y`: `x` if truthy, else `y`. -/
def pyOr (a b : PyVal) : PyVal := if pyTruthy a then a else b

/-- Python subscript `d[k]` with a string key, as used on `json.loads` output:
returns the value for a dict that has the key; a missing key (KeyError) or a
non-dict receiver (TypeError) raises, modelled as `none`. -/
def pyLookup (d : PyVal) (k : String) : Option PyVal :=
  match d with
  | vObj kvs => kvs.lookup k
  | _ => none

/-- Python `d.get(k, dflt)`: only dicts have `.get`; any other receiver raises
an AttributeError, modelled as `none`. -/
def pyGetOr (d : PyVal) (k : String) (dflt : PyVal) : Option PyVal :=
  match d with
  | vObj kvs => some ((kvs.lookup k).getD dflt)
  | _ => none

/-- Python subscript `x[0]` (and `x[n]` for a natural index): lists index into
their elements, strings yield a one-character string, and any other receiver
raises (TypeError for numbers and None, KeyError for the string-keyed dicts
produced by `json.loads`), modelled as `none`; an out-of-range index raises
IndexError, also `none`. -/
def pyIndex (v : PyVal) (n : Nat) : Option PyVal :=
  match v with
  | vArr xs => xs.get? n
  | vStr s => (s.data.get? n).map (fun c => vStr (String.singleton c))
  | _ => none

/-- Python `x == s` for a string literal `s`: equal strings compare equal, a
non-string value compares unequal without raising. -/
def pyEqStr (v : PyVal) (s : String) : Bool :=
  match v with
  | vStr t => t == s
  | _ => false

/-- Lower-casing of a string, `s.lower()`: character-wise `Char.toLower`,
which agrees with Python on ASCII text (defined through `List.map` so that it
evaluates by kernel reduction, unlike `String.toLower`). -/
def strLower (s : String) : String := String.mk (s.data.map Char.toLower)

/-- Python `x.lower()`: defined on strings only; any other receiver raises an
AttributeError, modelled as `none`. -/
def pyLowerStr (v : PyVal) : Option String :=
  match v with
  | vStr s => some (strLower s)
  | _ => none

/-- Python `s.capitalize()`: first character upper-cased, the rest
lower-cased. -/
def pyCapitalize (s : String) : String :=
  match s.data with
  | [] => ""
  | c :: r => String.mk (c.toUpper :: r.map Char.toLower)

/--
The property fetcher of app.py:

```
def fetch_pubchem_data(compound_name):
    try:
        url = ...
        res = requests.get(url)
        data = res.json()
        return data["PropertyTable"]["Properties"][0]
    except:
        return None
```

`resp` is the parsed JSON of the response: `.error ()` when the request or
`res.json()` itself raises.  Every raise inside the `try` is swallowed and
becomes `None` (here `none`).
-/
def fetch_pubchem_data (resp : Except Unit PyVal) : Option PyVal :=
  match resp with
  | .error _ => none
  | .ok data =>
    match pyLookup data "PropertyTable" with
    | none => none
    | some pt =>
      match pyLookup pt "Properties" with
      | none => none
      | some props => pyIndex props 0

/-
Rational arithmetic for the model.  The `Rat` operations of the ambient
library are deliberately `@[irreducible]`, so closed terms built from them do
not evaluate inside the kernel; the embedding instead computes with the
following `mkRat`-based operations, which do evaluate, and each of which is
proved equal to the corresponding library operation so that theorem
statements can use the ordinary notation.
-/

/-- Computable embedding of an integer into the rationals. -/
def intToRat (n : Int) : Rat := mkRat n 1

/-- Computable embedding of a natural number into the rationals. -/
def natToRat (n : Nat) : Rat := mkRat n 1

/-- Computable rational addition. -/
def qAdd (a b : Rat) : Rat := mkRat (a.num * b.den + b.num * a.den) (a.den * b.den)

/-- Computable rational subtraction. -/
def qSub (a b : Rat) : Rat := mkRat (a.num * b.den - b.num * a.den) (a.den * b.den)

/-- Computable rational multiplication. -/
def qMul (a b : Rat) : Rat := mkRat (a.num * b.num) (a.den * b.den)

/-- Computable rational division (zero when the divisor is zero, like the
library operation). -/
def qDiv (a b : Rat) : Rat :=
  mkRat (a.num * b.den * (if b.num < 0 then -1 else 1)) (a.den * b.num.natAbs)

/-- Python `max(a, b)` on numbers: the second argument only when it is
strictly greater (ties keep the first argument).  Defined by `if` so that it
evaluates by kernel reduction; it agrees with `max` (see `pyMax_eq_max`). -/
def pyMax (a b : Rat) : Rat := if a < b then b else a

/-- Numeric value of a Python operand of arithmetic (`weight - 10`,
`weight + 10`) and of `max(0, _)`: ints and floats are numbers, and bool is a
numeric type in Python (True - 10 == -9); a string, None, list or dict operand
raises a TypeError, modelled as `none`. -/
def pyToNum : PyVal → Option Rat
  | vInt n => some (intToRat n)
  | vNum q => some q
  | vBool b => some (if b then 1 else 0)
  | _ => none

/-- Value of a list of decimal digit characters. -/
def digitsToNat (ds : List Char) : Nat :=
  ds.foldl (fun a c => a * 10 + (c.toNat - 48)) 0

/-- Powers of ten, by plain recursion so that they evaluate by kernel
reduction. -/
def pow10 : Nat → Nat
  | 0 => 1
  | n + 1 => 10 * pow10 n

/-- Application of a decimal exponent to a rational mantissa. -/
def applyExp (q : Rat) (e : Int) : Rat :=
  if 0 ≤ e then qMul q (natToRat (pow10 e.toNat))
  else qDiv q (natToRat (pow10 (-e).toNat))

/-- Nonempty all-digit character list parsed as a (non-negative) integer. -/
def parseDigits : List Char → Option Int
  | [] => none
  | ds => if ds.all Char.isDigit then some (digitsToNat ds : Int) else none

/-- Optionally signed nonempty digit run. -/
def parseSigned : List Char → Option Int
  | '+' :: r => parseDigits r
  | '-' :: r => (parseDigits r).map Neg.neg
  | r => parseDigits r

/-- Exponent suffix of a Python float literal: empty, or `e`/`E` followed by an
optionally signed digit run. -/
def parseExpPart : List Char → Option Int
  | [] => some 0
  | 'e' :: r => parseSigned r
  | 'E' :: r => parseSigned r
  | _ => none

/-- Mantissa (with optional fractional part) and exponent of a Python float
literal; at least one digit must be present around the decimal point. -/
def parseMantissaExp (cs : List Char) : Option Rat :=
  let ip := cs.takeWhile Char.isDigit
  let r1 := cs.dropWhile Char.isDigit
  match r1 with
  | '.' :: r2 =>
    let fp := r2.takeWhile Char.isDigit
    let r3 := r2.dropWhile Char.isDigit
    if ip.isEmpty && fp.isEmpty then none
    else (parseExpPart r3).map (fun e =>
      applyExp (qAdd (natToRat (digitsToNat ip))
        (qDiv (natToRat (digitsToNat fp)) (natToRat (pow10 fp.length)))) e)
  | _ =>
    if ip.isEmpty then none
    else (parseExpPart r1).map (fun e => applyExp (natToRat (digitsToNat ip)) e)

/-- Python `float(s)` on a string: surrounding whitespace stripped, optional
sign, then a decimal literal with optional fraction and exponent; anything
else raises ValueError, modelled as `none`.  (The special literals inf and
nan, and underscore digit separators, are accepted by Python but play no role
for the properties verified here; the model rejects them, which matters to no
claim because the claims only distinguish parsable numerals from clearly
non-numeric strings.) -/
def parseFloatStr (s : String) : Option Rat :=
  let cs := s.data.dropWhile Char.isWhitespace
  let cs := (cs.reverse.dropWhile Char.isWhitespace).reverse
  match cs with
  | '+' :: r => parseMantissaExp r
  | '-' :: r => (parseMantissaExp r).map Neg.neg
  | r => parseMantissaExp r

/-- Python `int(s)` on a string: surrounding whitespace stripped, optional
sign, then a pure digit run; a fractional literal such as 2.5 raises. -/
def parseIntStr (s : String) : Option Int :=
  let cs := s.data.dropWhile Char.isWhitespace
  let cs := (cs.reverse.dropWhile Char.isWhitespace).reverse
  parseSigned cs

/-- Python `float(x)`: numbers and bools convert, strings are parsed, and
None, lists and dicts raise a TypeError, modelled as `none`. -/
def pyFloat : PyVal → Option Rat
  | vInt n => some (intToRat n)
  | vNum q => some q
  | vBool b => some (if b then 1 else 0)
  | vStr s => parseFloatStr s
  | _ => none

/-- Truncation of a rational toward zero, the rounding of Python
`int(float)`; `Int.tdiv` truncates toward zero. -/
def truncRat (q : Rat) : Int := Int.tdiv q.num (q.den : Int)

/-- Python `int(x)`: ints and bools convert, floats truncate toward zero,
strings are parsed as integer literals, and None, lists and dicts raise. -/
def pyInt : PyVal → Option Int
  | vInt n => some n
  | vNum q => some (truncRat q)
  | vBool b => some (if b then 1 else 0)
  | vStr s => parseIntStr s
  | _ => none

/--
The mass window of the similarity fetcher, lines 51 to 54 of app.py:

```
        weight = compound_data.get("MolecularWeight", 0)
        lower = max(0, weight - 10)
        upper = weight + 10
```

The pair `(lower, upper)` is interpolated into the range-search GET URL, so
`some (lo, hi)` means the remote endpoint is queried with the window
`[lo, hi]`; `none` means one of these lines raised (non-dict record, or a
weight value that does not support subtraction), the blanket `except` fires,
and no remote query is made at all.
-/
def queryWindow (compound_data : PyVal) : Option (Rat × Rat) :=
  match pyGetOr compound_data "MolecularWeight" (vInt 0) with
  | none => none
  | some wv =>
    match pyToNum wv with
    | none => none
    | some w => some (pyMax 0 (qSub w (intToRat 10)), qAdd w (intToRat 10))

/-- One step of the set comprehension in `suggest_similar`:

```
{item["Title"] for item in props if item.get("Title","").lower() != qt}
```

where `qt` is the lower-cased queried title.  `none` models a raise while the
item is processed (non-dict item, a non-string Title value on which `.lower()`
raises, or the KeyError of `item["Title"]` when the key is absent and the
default empty string passed the filter); `some none` means the item was
filtered out; `some (some t)` means the item contributes the title `t`. -/
def titleFilterStep (qLower : String) (item : PyVal) : Option (Option String) :=
  match item with
  | vObj kvs =>
    match kvs.lookup "Title" with
    | none => if "" ≠ qLower then none else some none
    | some (vStr t) => if strLower t ≠ qLower then some (some t) else some none
    | some _ => none
  | _ => none

/-- The titles contributed by the comprehension, in response order and with
duplicates, before they are poured into the Python set; `none` if any item
raises. -/
def collectTitles (qLower : String) : List PyVal → Option (List String)
  | [] => some []
  | item :: rest =>
    match titleFilterStep qLower item with
    | none => none
    | some o =>
      match collectTitles qLower rest with
      | none => none
      | some ts => some (o.elim ts (· :: ts))

/-- Lower-cased queried title, `compound_data.get("Title", "").lower()`:
the empty string when the key is absent, `none` (a raise) when the record is
not a dict or the title value is not a string. -/
def ownTitleLower (compound_data : PyVal) : Option String :=
  match compound_data with
  | vObj kvs =>
    match kvs.lookup "Title" with
    | none => some ""
    | some (vStr q) => some (strLower q)
    | some _ => none
  | _ => none

/-- A faithful stand-in for Python `list(·)` applied to a set of strings:
some enumeration of the distinct elements.  CPython iterates a set in hash
table order, which for strings depends on the per-process randomized hash
seed, so no single Lean function is THE order used by the program; the
embedding therefore takes the enumeration as a parameter and `IsSetEnum`
states exactly what Python guarantees: the enumeration lists each distinct
element once, in some order. -/
def IsSetEnum (setList : List String → List String) : Prop :=
  ∀ xs : List String, (setList xs).Nodup ∧ ∀ a, a ∈ setList xs ↔ a ∈ xs

/--
The similarity fetcher of app.py:

```
def suggest_similar(compound_data):
    try:
        weight = compound_data.get("MolecularWeight", 0)
        lower = max(0, weight - 10)
        upper = weight + 10
        url = ...{lower}-{upper}...
        res = requests.get(url).json()
        props = res["PropertyTable"]["Properties"]
        titles = list({item["Title"] for item in props
                       if item.get("Title","").lower()
                          != compound_data.get("Title", "").lower()})
        return titles[:5]
    except:
        return []
```

`resp` is the parsed range-search response (`.error ()` for a request or JSON
failure) and `setList` the set enumeration (see `IsSetEnum`).  When
`Properties` is not a list, the iteration over it either raises or yields no
titles (dict keys and string characters lack `.get`; the empty dict and the
empty string iterate zero times and give the empty set), so every non-list
shape ends in the empty list, which the model returns directly.  The queried
title is lower-cased once here though Python re-evaluates it per item: the
value is the same each time, and when it raises, Python raises at the first
item while a nonempty set is being built, with the same `[]` result.
-/
def suggest_similar (setList : List String → List String)
    (compound_data : PyVal) (resp : Except Unit PyVal) : List String :=
  match queryWindow compound_data with
  | none => []
  | some _ =>
    match resp with
    | .error _ => []
    | .ok res =>
      match pyLookup res "PropertyTable" with
      | none => []
      | some pt =>
        match pyLookup pt "Properties" with
        | some (vArr props) =>
          match ownTitleLower compound_data with
          | none => []
          | some qLower =>
            match collectTitles qLower props with
            | none => []
            | some ts => (setList ts).take 5
        | _ => []

/-- The fixed fallback string of the safety fetcher. -/
def fallbackMsg : String := "No safety data available."

/-- CID extraction `requests.get(cid_url).json()["IdentifierList"]["CID"][0]`
shared by `fetch_safety_info` and `render_3d`; `none` models a raised
KeyError, TypeError or IndexError. -/
def extractCid (d : PyVal) : Option PyVal :=
  match pyLookup d "IdentifierList" with
  | none => none
  | some il =>
    match pyLookup il "CID" with
    | none => none
    | some cids => pyIndex cids 0

/--
The body of the section loop of `fetch_safety_info`, lines 37 to 44 of app.py:

```
            if section.get("TOCHeading", "") == "Safety and Hazards":
                info = section.get("Information", [])
                if info:
                    value = info[0].get("Value", {}).get("StringWithMarkup", [])
                    if value:
                        return value[0].get("String", "No safety data available.")
```

`none` models a raise inside the body (non-dict section, an indexing error on
a truthy non-list `Information` or `StringWithMarkup`, or `.get` on a
non-dict entry); `some (some v)` models the `return` statement, whose value is
whatever `value[0].get("String", ...)` yields, a PyVal that need not be a
string; `some none` means the loop moves on to the next section.  Only
`info[0]` and `value[0]` are ever consulted.
-/
def sectionStep (s : PyVal) : Option (Option PyVal) :=
  match pyGetOr s "TOCHeading" (vStr "") with
  | none => none
  | some h =>
    if pyEqStr h "Safety and Hazards" then
      match pyGetOr s "Information" (vArr []) with
      | none => none
      | some info =>
        if pyTruthy info then
          match pyIndex info 0 with
          | none => none
          | some e0 =>
            match pyGetOr e0 "Value" (vObj []) with
            | none => none
            | some val =>
              match pyGetOr val "StringWithMarkup" (vArr []) with
              | none => none
              | some swm =>
                if pyTruthy swm then
                  match pyIndex swm 0 with
                  | none => none
                  | some m0 => pyGetOr m0 "String" (vStr fallbackMsg)
                      |>.map some
                else some none
        else some none
    else some none

/-- The `for section in ...Section...` loop: the first section whose step
returns a value decides the result; a raise (`none`) aborts the loop; falling
off the end reaches the `return "No safety data available."` after the
loop. -/
def scanSections : List PyVal → Option PyVal
  | [] => some (vStr fallbackMsg)
  | s :: rest =>
    match sectionStep s with
    | none => none
    | some (some v) => some v
    | some none => scanSections rest

/-- The section list of the hazard document,
`safety_data.get("Record", {}).get("Section", [])`. -/
def sectionsOf (sd : PyVal) : Option PyVal :=
  match pyGetOr sd "Record" (vObj []) with
  | none => none
  | some r => pyGetOr r "Section" (vArr [])

/--
The safety fetcher of app.py (lines 30 to 46): the CID request and the hazard
document request are its two remote calls, passed in parsed (`.error ()` for
a request or JSON failure).  Every raise inside the `try` falls into
`except: return "No safety data available."`.  When the extracted `Section`
value is not a list, iterating it either raises (dict keys and string
characters lack `.get`) or iterates zero times (empty dict or string), so
every non-list shape also ends at the fallback, which the model returns
directly.
-/
def fetch_safety_info (cidResp sResp : Except Unit PyVal) : PyVal :=
  match cidResp with
  | .error _ => vStr fallbackMsg
  | .ok cd =>
    match extractCid cd with
    | none => vStr fallbackMsg
    | some _ =>
      match sResp with
      | .error _ => vStr fallbackMsg
      | .ok sd =>
        match sectionsOf sd with
        | some (vArr l) =>
          match scanSections l with
          | none => vStr fallbackMsg
          | some v => v
        | _ => vStr fallbackMsg

/-- Whether a section carries the heading looked for by the safety scan,
`section.get("TOCHeading", "") == "Safety and Hazards"` (false when the
section is not a dict, a case in which the scan raises and the fetcher falls
back anyway). -/
def isSafetySection (s : PyVal) : Bool :=
  match pyGetOr s "TOCHeading" (vStr "") with
  | some h => pyEqStr h "Safety and Hazards"
  | none => false

/-- Whether `section.get("Information", [])` is the empty list, i.e. the key
is absent or holds an empty list. -/
def hasEmptyInfo (s : PyVal) : Bool :=
  match pyGetOr s "Information" (vArr []) with
  | some (vArr []) => true
  | _ => false

/-- Float coercion of one chart cell, `float(v or 0)` with `v` the value
`data.get(field, 0)`. -/
def floatCoerce (v : PyVal) : Option Rat := pyFloat (pyOr v (vInt 0))

/-- Int coercion of one chart cell, `int(v or 0)`. -/
def intCoerce (v : PyVal) : Option Int := pyInt (pyOr v (vInt 0))

/--
The four chart values of `display_info`, lines 125 to 133 of app.py:

```
            "Value": [
                float(data.get("MolecularWeight", 0) or 0),
                float(data.get("XLogP", 0) or 0),
                int(data.get("HBondDonorCount", 0) or 0),
                int(data.get("HBondAcceptorCount", 0) or 0)
            ]
```

(The source spells the keys with single quotes.)

`none` models an uncaught raise: `display_info` has no try/except, so a
ValueError from `float(...)`/`int(...)` propagates out of the chart block.
-/
def chartValues (data : PyVal) : Option (List Rat) :=
  match pyGetOr data "MolecularWeight" (vInt 0) with
  | none => none
  | some v1 =>
    match floatCoerce v1 with
    | none => none
    | some mw =>
      match pyGetOr data "XLogP" (vInt 0) with
      | none => none
      | some v2 =>
        match floatCoerce v2 with
        | none => none
        | some xl =>
          match pyGetOr data "HBondDonorCount" (vInt 0) with
          | none => none
          | some v3 =>
            match intCoerce v3 with
            | none => none
            | some dc =>
              match pyGetOr data "HBondAcceptorCount" (vInt 0) with
              | none => none
              | some v4 =>
                match intCoerce v4 with
                | none => none
                | some ac => some [mw, xl, intToRat dc, intToRat ac]

/-- Python subscript `d[k]` keeping the exception detail: `str(KeyError(k))`
is the key in single quotes; the TypeError text for a non-dict receiver is
abbreviated (its exact wording varies by receiver type and plays no role:
claim C8 only requires the raised detail string, whatever it is, to be
embedded verbatim in the error markup). -/
def pyLookupE (d : PyVal) (k : String) : Except String PyVal :=
  match d with
  | vObj kvs =>
    match kvs.lookup k with
    | some v => .ok v
    | none => .error ("\x27" ++ k ++ "\x27")
  | _ => .error "object is not subscriptable"

/-- Python subscript `x[0]` keeping the exception detail. -/
def pyIndexE (v : PyVal) (n : Nat) : Except String PyVal :=
  match v with
  | vArr xs =>
    match xs.get? n with
    | some x => .ok x
    | none => .error "list index out of range"
  | vStr s =>
    match s.data.get? n with
    | some c => .ok (vStr (String.singleton c))
    | none => .error "string index out of range"
  | _ => .error "object is not subscriptable"

/-- CID extraction inside `render_3d`, with exception detail. -/
def extractCidE (d : PyVal) : Except String PyVal :=
  match pyLookupE d "IdentifierList" with
  | .error e => .error e
  | .ok il =>
    match pyLookupE il "CID" with
    | .error e => .error e
    | .ok cids => pyIndexE cids 0

/-- Configuration handed to the third-party viewer on the success path of
`render_3d`: width/height 400, the downloaded SDF text as the model in format
sdf, stick style, zoom to fit, spin on. -/
structure ViewerConfig where
  width : Nat
  height : Nat
  modelData : String
  modelFormat : String
  stickStyle : Bool
  zoomFit : Bool
  spinOn : Bool

/-- Boolean attribute text for the modelled markup. -/
def boolStr (b : Bool) : String := if b then "true" else "false"

/-- Modelled from the spec: py3Dmol is a third-party widget outside this
repository; the spec describes `mol_view._make_html()` only as self-contained
embeddable markup for the configured viewer (stick style, zoom to fit,
continuous spin).  The model records the configuration in the markup; what
matters to the claims is that this success markup is a fixed-shape fragment
distinct from the error fragment of the `except` branch. -/
def viewerPre : String := "<div id=3dmolviewer width="

/-- Modelled from the spec: the markup of the configured viewer (see
`viewerPre`); the appends are grouped to the right so that `viewerPre` is a
visible prefix. -/
def makeViewerHtml (cfg : ViewerConfig) : String :=
  viewerPre ++ (toString cfg.width ++
  (" height=" ++ (toString cfg.height ++
  (" format=" ++ (cfg.modelFormat ++
  (" stick=" ++ (boolStr cfg.stickStyle ++
  (" zoom=" ++ (boolStr cfg.zoomFit ++
  (" spin=" ++ (boolStr cfg.spinOn ++
  (">" ++ (cfg.modelData ++ "</div>")))))))))))))

/-- Everything before the exception detail in the error fragment of
`render_3d` (the f-string on line 82 of app.py). -/
def errPre : String :=
  "<div style=\x27color:red;\x27>3D structure not available for this compound.<br><small>"

/-- Everything after the exception detail in the error fragment. -/
def errPost : String := "</small></div>"

/-- The error fragment `render_3d` returns from its `except Exception as e`
branch, with `str(e)` interpolated between `errPre` and `errPost`. -/
def errHtml (e : String) : String := errPre ++ (e ++ errPost)

/-- The `try` body of `render_3d`: resolve the name to a CID, download the
SDF text, construct the viewer.  `cidResp` and `sdfResp` are the two remote
responses (`.error msg` for a request failure with detail `msg`; the SDF
download yields raw text via `.text`); `viewerErr` is `some msg` when the
py3Dmol construction itself raises with detail `msg`.  The first raised
exception aborts the body with its detail string. -/
def render3dBody (cidResp : Except String PyVal) (sdfResp : Except String String)
    (viewerErr : Option String) : Except String String :=
  match cidResp with
  | .error e => .error e
  | .ok cd =>
    match extractCidE cd with
    | .error e => .error e
    | .ok _ =>
      match sdfResp with
      | .error e => .error e
      | .ok sdf =>
        match viewerErr with
        | some e => .error e
        | none => .ok (makeViewerHtml ⟨400, 400, sdf, "sdf", true, true, true⟩)

/--
The 3D renderer of app.py (lines 63 to 82):

```
def render_3d(compound_name):
    try:
        ...
        return mol_view._make_html()
    except Exception as e:
        return the f-string error fragment with str(e) interpolated
```
-/
def render_3d (cidResp : Except String PyVal) (sdfResp : Except String String)
    (viewerErr : Option String) : String :=
  match render3dBody cidResp sdfResp viewerErr with
  | .ok html => html
  | .error e => errHtml e

/-- Observable outcome of `display_info` for one compound: either the
`st.error(f"{label} not found.")` message followed by `return`, or the
rendered page (header line, similarity list, safety callout, the four chart
values, viewer markup). -/
inductive DisplayResult where
  | notFound (msg : String)
  | page (header : String) (similar : List String) (safety : PyVal)
      (chart : List Rat) (viewerHtml : String)

/--
The presentation function `display_info` of app.py (lines 99 to 147), with
every remote response passed in explicitly.  The gate on lines 100 to 102 is

```
    data = fetch_pubchem_data(compound)
    if not data:
        st.error(f"{label} not found.")
        return
```

so a `None` result, and likewise a falsy (empty) record, emits the not-found
message and stops.  On the page path the seven `st.write` property lines are
pure f-string formatting of values defaulted to "N/A" and cannot raise;
they carry no verified property and are not recorded in the result.  The
chart block has no surrounding try/except, so `chartValues = none` is an
uncaught exception that aborts the rendering, modelled as an overall `none`.
-/
def display_info (compound label : String)
    (propResp simResp cidResp safetyResp : Except Unit PyVal)
    (r3cid : Except String PyVal) (r3sdf : Except String String)
    (viewerErr : Option String)
    (setList : List String → List String) : Option DisplayResult :=
  match fetch_pubchem_data propResp with
  | none => some (.notFound (label ++ " not found."))
  | some data =>
    if pyTruthy data then
      match chartValues data with
      | none => none
      | some vals =>
        some (.page ("### 📘 " ++ label ++ ": " ++ pyCapitalize compound)
          (suggest_similar setList data simResp)
          (fetch_safety_info cidResp safetyResp)
          vals
          (render_3d r3cid r3sdf viewerErr))
    else some (.notFound (label ++ " not found."))

/-- The title a response item carries: the value of its Title key when the
item is a dict and the value is a string.  Used to state which titles the
range-search response offered, and in which order. -/
def titleOf (item : PyVal) : Option String :=
  match item with
  | vObj kvs =>
    match kvs.lookup "Title" with
    | some (vStr t) => some t
    | _ => none
  | _ => none

/-- The titles carried by a list of response items, in response order. -/
def titlesOf (props : List PyVal) : List String := props.filterMap titleOf

/-- The title sequence of a range-search response: the titles of
`PropertyTable.Properties`, in the order the remote service returned them. -/
def respTitleSeq (resp : Except Unit PyVal) : List String :=
  match resp with
  | .error _ => []
  | .ok res =>
    match pyLookup res "PropertyTable" with
    | some pt =>
      match pyLookup pt "Properties" with
      | some (vArr props) => titlesOf props
      | _ => []
    | none => []

/-- An admissible set enumeration that does not follow first-occurrence
order: it lists the distinct elements in reversed deduplication order.
CPython makes no ordering promise for `list(set)`, so this is as legitimate a
behaviour of line 58 of app.py as any other. -/
def badEnum : List String → List String := fun xs => (List.dedup xs).reverse

/-
Concrete inputs used by witnesses and counterexamples.
-/

/-- A CID response body that resolves successfully. -/
def cidOk : PyVal := vObj [("IdentifierList", vObj [("CID", vArr [vInt 1])])]

/-- A range-search response item carrying only a title. -/
def titleItem (t : String) : PyVal := vObj [("Title", vStr t)]

/-- A queried property record: weight 100, title Q. -/
def cdQ : PyVal := vObj [("MolecularWeight", vInt 100), ("Title", vStr "Q")]

/-- A range-search response offering the titles A then B, in that order. -/
def respAB : Except Unit PyVal :=
  .ok (vObj [("PropertyTable", vObj [("Properties", vArr [titleItem "A", titleItem "B"])])])

/-- A queried property record: weight 100, title Water. -/
def cdWater : PyVal := vObj [("MolecularWeight", vInt 100), ("Title", vStr "Water")]

/-- A range-search response whose titles include the queried title in two
casings and a duplicate. -/
def respWater : Except Unit PyVal :=
  .ok (vObj [("PropertyTable", vObj [("Properties",
    vArr [titleItem "WATER", titleItem "Ice", titleItem "water",
      titleItem "Steam", titleItem "Ice"])])])

/-- A property record whose MolecularWeight is a non-numeric string. -/
def cdNA : PyVal := vObj [("MolecularWeight", vStr "N/A")]

/-- A hazard-document section with a heading other than Safety and Hazards. -/
def sOther : PyVal := vObj [("TOCHeading", vStr "Names and Identifiers")]

/-- A Safety and Hazards section whose Information list is empty. -/
def sNoInfo : PyVal :=
  vObj [("TOCHeading", vStr "Safety and Hazards"), ("Information", vArr [])]

/-- An information entry whose first markup string is the word Flammable. -/
def infoFlammable : PyVal :=
  vObj [("Value", vObj [("StringWithMarkup", vArr [vObj [("String", vStr "Flammable")]])])]

/-- A second information entry, never reachable by the scan. -/
def infoIgnored : PyVal :=
  vObj [("Value", vObj [("StringWithMarkup", vArr [vObj [("String", vStr "Ignored")]])])]

/-- A Safety and Hazards section whose first information entry yields the
word Flammable. -/
def sFlammable : PyVal :=
  vObj [("TOCHeading", vStr "Safety and Hazards"), ("Information", vArr [infoFlammable])]

/-- A hazard document whose FIRST Safety and Hazards section has an empty
Information list and whose SECOND one yields the word Flammable. -/
def sdTwoSections : PyVal :=
  vObj [("Record", vObj [("Section", vArr [sNoInfo, sFlammable])])]

/-- A hazard document with one non-matching section and one matching section
with no information entries. -/
def sdNoData : PyVal :=
  vObj [("Record", vObj [("Section", vArr [sOther, sNoInfo])])]

/-- A malformed property response whose Properties value is the string ab
rather than an array. -/
def respStrProps : PyVal := vObj [("PropertyTable", vObj [("Properties", vStr "ab")])]

/-- A property record for the chart: a numeric-string weight, a None XLogP
and the two count fields absent. -/
def cdChart : PyVal := vObj [("MolecularWeight", vStr "18.015"), ("XLogP", vNone)]

/-
Theorems.  First the bridges between the computable rational operations of
the model and the library operations, then the verification of the claims.
-/

theorem intToRat_eq (n : Int) : intToRat n = (n : Rat) := by simp [intToRat]

theorem natToRat_eq (n : Nat) : natToRat n = (n : Rat) := by simp [natToRat]

theorem qAdd_eq (a b : Rat) : qAdd a b = a + b := by
  rw [qAdd, Rat.add_def, Rat.normalize_eq_mkRat (by positivity)]

theorem qSub_eq (a b : Rat) : qSub a b = a - b := by
  rw [qSub, Rat.sub_def, Rat.normalize_eq_mkRat (by positivity)]

theorem qMul_eq (a b : Rat) : qMul a b = a * b := by
  rw [qMul, Rat.mul_def, Rat.normalize_eq_mkRat (by positivity)]

theorem qDiv_eq (a b : Rat) : qDiv a b = a / b := by
  rw [Rat.div_def', qDiv, Rat.mkRat_eq_divInt]
  have hs : (if b.num < 0 then (-1 : Int) else 1) ≠ 0 := by split <;> omega
  have hAbs : ((a.den * b.num.natAbs : Nat) : Int)
      = a.den * b.num * (if b.num < 0 then (-1 : Int) else 1) := by
    rw [Nat.cast_mul]
    split
    · have h2 : ((b.num.natAbs : Nat) : Int) = -b.num := by omega
      rw [h2]; ring
    · have h2 : ((b.num.natAbs : Nat) : Int) = b.num := by omega
      rw [h2]; ring
  rw [hAbs]
  exact Rat.divInt_mul_right hs

theorem pyMax_eq_max (a b : Rat) : pyMax a b = max a b := by
  unfold pyMax
  rcases lt_or_le a b with h | h
  · simp [h, max_eq_right h.le]
  · simp [not_lt.mpr h, max_eq_left h]

/-- C10 counterexample: on a response whose `PropertyTable.Properties` value
is the STRING ab, `fetch_pubchem_data` returns the one-character string a
(Python string indexing), which is neither `None` nor the first element of a
`Properties` array — the response has no such array at all.  This refutes
the claim that the result is always `None` or the first element of the
`Properties` array. -/
theorem fetch_pubchem_data_counterexample :
    fetch_pubchem_data (.ok respStrProps) = some (vStr "a")
    ∧ ¬ ∃ pt xs, pyLookup respStrProps "PropertyTable" = some pt
        ∧ pyLookup pt "Properties" = some (vArr xs) := by
  constructor
  · rfl
  · rintro ⟨pt, xs, hpt, hxs⟩
    have h1 : pyLookup respStrProps "PropertyTable"
        = some (vObj [("Properties", vStr "ab")]) := rfl
    rw [h1] at hpt
    injection hpt with h2
    subst h2
    have h3 : pyLookup (vObj [("Properties", vStr "ab")]) "Properties"
        = some (vStr "ab") := rfl
    rw [h3] at hxs
    injection hxs with h4
    exact PyVal.noConfusion h4

/-- C10 (amended): for every remote response, `fetch_pubchem_data` returns
`None`, or the first element of the `PropertyTable.Properties` array, or —
when the `Properties` value is a nonempty string — the one-character string
of its first character; a missing key, an empty array or an empty string all
yield `None`. -/
theorem fetch_pubchem_data_first :
    (∀ r : Except Unit PyVal,
      fetch_pubchem_data r = none
      ∨ (∃ d pt x xs, r = .ok d ∧ pyLookup d "PropertyTable" = some pt
          ∧ pyLookup pt "Properties" = some (vArr (x :: xs))
          ∧ fetch_pubchem_data r = some x)
      ∨ (∃ d pt c cs, r = .ok d ∧ pyLookup d "PropertyTable" = some pt
          ∧ pyLookup pt "Properties" = some (vStr (String.mk (c :: cs)))
          ∧ fetch_pubchem_data r = some (vStr (String.singleton c))))
    ∧ (∀ d, pyLookup d "PropertyTable" = none → fetch_pubchem_data (.ok d) = none)
    ∧ (∀ d pt, pyLookup d "PropertyTable" = some pt →
        pyLookup pt "Properties" = none → fetch_pubchem_data (.ok d) = none)
    ∧ (∀ d pt, pyLookup d "PropertyTable" = some pt →
        pyLookup pt "Properties" = some (vArr []) → fetch_pubchem_data (.ok d) = none) := by
  refine ⟨?_, ?_, ?_, ?_⟩
  · intro r
    cases r with
    | error e => left; rfl
    | ok d =>
      rcases hpt : pyLookup d "PropertyTable" with _ | pt
      · left; simp [fetch_pubchem_data, hpt]
      · rcases hpr : pyLookup pt "Properties" with _ | props
        · left; simp [fetch_pubchem_data, hpt, hpr]
        · cases props with
          | vArr xs =>
            cases xs with
            | nil => left; simp [fetch_pubchem_data, hpt, hpr, pyIndex]
            | cons x xs =>
              right; left
              exact ⟨d, pt, x, xs, rfl, hpt, hpr,
                by simp [fetch_pubchem_data, hpt, hpr, pyIndex]⟩
          | vStr s =>
            obtain ⟨cs⟩ := s
            cases cs with
            | nil => left; simp [fetch_pubchem_data, hpt, hpr, pyIndex]
            | cons c cs =>
              right; right
              exact ⟨d, pt, c, cs, rfl, hpt, hpr,
                by simp [fetch_pubchem_data, hpt, hpr, pyIndex]⟩
          | vNone => left; simp [fetch_pubchem_data, hpt, hpr, pyIndex]
          | vBool b => left; simp [fetch_pubchem_data, hpt, hpr, pyIndex]
          | vInt n => left; simp [fetch_pubchem_data, hpt, hpr, pyIndex]
          | vNum q => left; simp [fetch_pubchem_data, hpt, hpr, pyIndex]
          | vObj kvs => left; simp [fetch_pubchem_data, hpt, hpr, pyIndex]
  · intro d h
    simp [fetch_pubchem_data, h]
  · intro d pt h1 h2
    simp [fetch_pubchem_data, h1, h2]
  · intro d pt h1 h2
    simp [fetch_pubchem_data, h1, h2, pyIndex]

/-- C10 witness: an empty `Properties` array yields `None`. -/
theorem fetch_pubchem_data_first_witness :
    fetch_pubchem_data (.ok (vObj [("PropertyTable", vObj [("Properties", vArr [])])])) = none :=
  fetch_pubchem_data_first.2.2.2 (vObj [("PropertyTable", vObj [("Properties", vArr [])])])
    (vObj [("Properties", vArr [])]) rfl rfl

/-- C5: every failure mode of the property fetch — request or JSON failure,
missing `PropertyTable`, missing `Properties`, empty `Properties` — returns
the same `None`, and `display_info` then emits the not-found message and
stops (returns without touching the similarity, safety, chart or 3D paths);
since all causes collapse to the same `None`, the caller cannot distinguish
them. -/
theorem display_info_not_found :
    ∀ (compound label : String) (propResp simResp cidResp safetyResp : Except Unit PyVal)
      (r3cid : Except String PyVal) (r3sdf : Except String String)
      (viewerErr : Option String) (setList : List String → List String),
      (propResp = .error () → fetch_pubchem_data propResp = none)
      ∧ (∀ d, propResp = .ok d → pyLookup d "PropertyTable" = none →
          fetch_pubchem_data propResp = none)
      ∧ (∀ d pt, propResp = .ok d → pyLookup d "PropertyTable" = some pt →
          pyLookup pt "Properties" = none → fetch_pubchem_data propResp = none)
      ∧ (∀ d pt, propResp = .ok d → pyLookup d "PropertyTable" = some pt →
          pyLookup pt "Properties" = some (vArr []) → fetch_pubchem_data propResp = none)
      ∧ (fetch_pubchem_data propResp = none →
          display_info compound label propResp simResp cidResp safetyResp
            r3cid r3sdf viewerErr setList
            = some (.notFound (label ++ " not found."))) := by
  intro compound label propResp simResp cidResp safetyResp r3cid r3sdf viewerErr setList
  refine ⟨?_, ?_, ?_, ?_, ?_⟩
  · rintro rfl; rfl
  · rintro d rfl h; simp [fetch_pubchem_data, h]
  · rintro d pt rfl h1 h2; simp [fetch_pubchem_data, h1, h2]
  · rintro d pt rfl h1 h2; simp [fetch_pubchem_data, h1, h2, pyIndex]
  · intro h; simp [display_info, h]

/-- C5 witness: a failed request for an unresolvable name yields the
not-found message. -/
theorem display_info_not_found_witness :
    display_info "zzzqqqxx123" "Compound 1" (.error ()) (.error ()) (.error ()) (.error ())
      (.error "err") (.error "err") none List.dedup
      = some (.notFound ("Compound 1" ++ " not found.")) :=
  (display_info_not_found "zzzqqqxx123" "Compound 1" (.error ()) (.error ()) (.error ())
    (.error ()) (.error "err") (.error "err") none List.dedup).2.2.2.2 rfl

/-- C2: for a record whose MolecularWeight value is a number `w ≥ 0`, the
similarity fetcher queries the range-search endpoint with the mass window
`[max 0 (w - 10), w + 10]`; in particular `w = 0` gives the window
`[0, 10]`.  (`queryWindow` is the pair interpolated into the GET URL inside
`suggest_similar`.) -/
theorem queryWindow_spec :
    ∀ (cd v : PyVal) (w : Rat),
      pyGetOr cd "MolecularWeight" (vInt 0) = some v →
      pyToNum v = some w → 0 ≤ w →
      queryWindow cd = some (max 0 (w - 10), w + 10)
      ∧ (w = 0 → queryWindow cd = some (0, 10)) := by
  intro cd v w h1 h2 _hw
  have hq : queryWindow cd = some (pyMax 0 (qSub w (intToRat 10)), qAdd w (intToRat 10)) := by
    simp [queryWindow, h1, h2]
  have hl : pyMax 0 (qSub w (intToRat 10)) = max 0 (w - 10) := by
    rw [qSub_eq, intToRat_eq, pyMax_eq_max]
    norm_num
  have hu : qAdd w (intToRat 10) = w + 10 := by
    rw [qAdd_eq, intToRat_eq]
    norm_num
  refine ⟨by rw [hq, hl, hu], ?_⟩
  rintro rfl
  rw [hq, hl, hu]
  have h3 : max (0 : Rat) (0 - 10) = 0 := by norm_num
  have h4 : (0 : Rat) + 10 = 10 := by norm_num
  rw [h3, h4]

/-- C2 witness: weight 0 gives the window `[0, 10]`. -/
theorem queryWindow_spec_witness :
    queryWindow (vObj [("MolecularWeight", vInt 0)]) = some (0, 10) :=
  (queryWindow_spec (vObj [("MolecularWeight", vInt 0)]) (vInt 0) 0 rfl (by decide) le_rfl).2 rfl

/-- C9: when the MolecularWeight value of the record is non-numeric (for
example the string the property endpoint actually returns), the window
arithmetic `weight - 10` raises a TypeError, the blanket `except` swallows
it, no range-search query is made (`queryWindow` is `none`), and
`suggest_similar` returns the empty list, for every would-be response and
set enumeration. -/
theorem suggest_similar_nonnumeric :
    ∀ (setList : List String → List String) (cd : PyVal) (resp : Except Unit PyVal) (v : PyVal),
      pyGetOr cd "MolecularWeight" (vInt 0) = some v →
      pyToNum v = none →
      queryWindow cd = none ∧ suggest_similar setList cd resp = [] := by
  intro setList cd resp v h1 h2
  have hq : queryWindow cd = none := by simp [queryWindow, h1, h2]
  exact ⟨hq, by simp [suggest_similar, hq]⟩

theorem titleFilterStep_some (q : String) (item : PyVal) (t : String)
    (h : titleFilterStep q item = some (some t)) :
    strLower t ≠ q ∧ titleOf item = some t := by
  cases item with
  | vObj kvs =>
    simp only [titleFilterStep] at h
    split at h
    · split at h <;> simp at h
    · rename_i t0 heq
      split at h
      · rename_i hc
        injection h with h'
        injection h' with h''
        subst h''
        exact ⟨hc, by simp [titleOf, heq]⟩
      · simp at h
    · simp at h
  | vNone => simp [titleFilterStep] at h
  | vBool b => simp [titleFilterStep] at h
  | vInt n => simp [titleFilterStep] at h
  | vNum q2 => simp [titleFilterStep] at h
  | vStr s => simp [titleFilterStep] at h
  | vArr xs => simp [titleFilterStep] at h

theorem collectTitles_sound (q : String) :
    ∀ (props : List PyVal) (ts : List String), collectTitles q props = some ts →
      ∀ t ∈ ts, strLower t ≠ q ∧ t ∈ titlesOf props := by
  intro props
  induction props with
  | nil =>
    intro ts h t ht
    simp only [collectTitles] at h
    injection h with h'
    subst h'
    simp at ht
  | cons item rest ih =>
    intro ts h t ht
    simp only [collectTitles] at h
    rcases hstep : titleFilterStep q item with _ | o
    · rw [hstep] at h; cases h
    · rw [hstep] at h
      rcases hrest : collectTitles q rest with _ | ts'
      · rw [hrest] at h; cases h
      · rw [hrest] at h
        injection h with h'
        subst h'
        cases o with
        | none =>
          obtain ⟨h1, h2⟩ := ih ts' hrest t ht
          refine ⟨h1, ?_⟩
          simp only [titlesOf, List.mem_filterMap] at h2 ⊢
          obtain ⟨a, ha, hta⟩ := h2
          exact ⟨a, List.mem_cons_of_mem _ ha, hta⟩
        | some t0 =>
          rcases List.mem_cons.mp ht with rfl | hmem
          · obtain ⟨h1, h2⟩ := titleFilterStep_some q item t hstep
            refine ⟨h1, ?_⟩
            simp only [titlesOf, List.mem_filterMap]
            exact ⟨item, List.mem_cons_self _ _, h2⟩
          · obtain ⟨h1, h2⟩ := ih ts' hrest t hmem
            refine ⟨h1, ?_⟩
            simp only [titlesOf, List.mem_filterMap] at h2 ⊢
            obtain ⟨a, ha, hta⟩ := h2
            exact ⟨a, List.mem_cons_of_mem _ ha, hta⟩

theorem suggest_similar_cases (setList : List String → List String) (cd : PyVal)
    (resp : Except Unit PyVal) :
    suggest_similar setList cd resp = []
    ∨ ∃ qLower ts res pt props,
        resp = .ok res
        ∧ pyLookup res "PropertyTable" = some pt
        ∧ pyLookup pt "Properties" = some (vArr props)
        ∧ ownTitleLower cd = some qLower
        ∧ collectTitles qLower props = some ts
        ∧ suggest_similar setList cd resp = (setList ts).take 5 := by
  rcases hw : queryWindow cd with _ | w
  · left; simp [suggest_similar, hw]
  · rcases resp with e | res
    · left; simp [suggest_similar, hw]
    · rcases hpt : pyLookup res "PropertyTable" with _ | pt
      · left; simp [suggest_similar, hw, hpt]
      · rcases hpr : pyLookup pt "Properties" with _ | props
        · left; simp [suggest_similar, hw, hpt, hpr]
        · cases props with
          | vArr ps =>
            rcases hq : ownTitleLower cd with _ | qL
            · left; simp [suggest_similar, hw, hpt, hpr, hq]
            · rcases hc : collectTitles qL ps with _ | ts
              · left; simp [suggest_similar, hw, hpt, hpr, hq, hc]
              · right
                refine ⟨qL, ts, res, pt, ps, rfl, ?_, ?_, ?_, ?_, ?_⟩ <;>
                  first
                    | rfl
                    | exact hpt
                    | exact hpr
                    | exact hq
                    | exact hc
                    | simp [suggest_similar, hw, hpt, hpr, hq, hc]
          | vNone => left; simp [suggest_similar, hw, hpt, hpr]
          | vBool b => left; simp [suggest_similar, hw, hpt, hpr]
          | vInt n => left; simp [suggest_similar, hw, hpt, hpr]
          | vNum q2 => left; simp [suggest_similar, hw, hpt, hpr]
          | vStr s => left; simp [suggest_similar, hw, hpt, hpr]
          | vObj kvs => left; simp [suggest_similar, hw, hpt, hpr]

theorem isSetEnum_dedup : IsSetEnum List.dedup := by
  intro xs
  exact ⟨List.nodup_dedup xs, fun a => List.mem_dedup⟩

/-- C1: for every property record, every range-search response and every
admissible enumeration of the Python set (see `IsSetEnum`), the similarity
fetcher returns at most 5 pairwise-distinct title strings, and no returned
title equals the queried record's own title under case-insensitive
comparison (`ownTitleLower` is the lower-cased queried title the filter on
line 57 of app.py compares against). -/
theorem suggest_similar_bounded :
    ∀ (setList : List String → List String), IsSetEnum setList →
    ∀ (cd : PyVal) (resp : Except Unit PyVal),
      (suggest_similar setList cd resp).length ≤ 5
      ∧ (suggest_similar setList cd resp).Nodup
      ∧ (∀ q, ownTitleLower cd = some q →
          ∀ t ∈ suggest_similar setList cd resp, strLower t ≠ q) := by
  intro setList hE cd resp
  rcases suggest_similar_cases setList cd resp with h | ⟨qL, ts, res, pt, ps, _hr, _h1, _h2, hq, hc, heq⟩
  · rw [h]
    exact ⟨by simp, by simp, by simp⟩
  · rw [heq]
    obtain ⟨hnd, hmem⟩ := hE ts
    refine ⟨List.length_take_le 5 _, List.Nodup.sublist (List.take_sublist _ _) hnd, ?_⟩
    intro q hq2 t ht
    have hqq : q = qL := Option.some.inj (hq2.symm.trans hq)
    rw [hqq]
    have h3 : t ∈ ts := (hmem t).1 (List.mem_of_mem_take ht)
    exact (collectTitles_sound qL ps ts hc t h3).1

/-- C1 witness: for the record titled Water and a response offering WATER,
Ice, water, Steam, Ice, the output is bounded, duplicate-free and excludes
every casing of Water. -/
theorem suggest_similar_bounded_witness :
    (suggest_similar List.dedup cdWater respWater).length ≤ 5
    ∧ (suggest_similar List.dedup cdWater respWater).Nodup
    ∧ (∀ q, ownTitleLower cdWater = some q →
        ∀ t ∈ suggest_similar List.dedup cdWater respWater, strLower t ≠ q) :=
  suggest_similar_bounded List.dedup isSetEnum_dedup cdWater respWater

theorem isSetEnum_badEnum : IsSetEnum badEnum := by
  intro xs
  constructor
  · simp [badEnum, List.nodup_dedup]
  · intro a
    simp [badEnum]

/-- C7 counterexample: the output order of `suggest_similar` is the
iteration order of a Python set, which CPython does not tie to the response
order; under the admissible enumeration `badEnum` the response offering A
then B produces the output B then A, which is not a subsequence of the
response's title sequence.  This refutes the claim that the output list is
always a subsequence of the response's title sequence. -/
theorem suggest_similar_order_counterexample :
    IsSetEnum badEnum
    ∧ respTitleSeq respAB = ["A", "B"]
    ∧ suggest_similar badEnum cdQ respAB = ["B", "A"]
    ∧ ¬ List.Sublist ["B", "A"] ["A", "B"] :=
  ⟨isSetEnum_badEnum, rfl, by decide, by decide⟩

/-- C7 (amended): no explicit sort is applied, but the order is the
unspecified iteration order of a Python set rather than the response order;
what holds is that the output is duplicate-free and every output title
occurs among the response's titles. -/
theorem suggest_similar_subset :
    ∀ (setList : List String → List String), IsSetEnum setList →
    ∀ (cd : PyVal) (resp : Except Unit PyVal),
      (suggest_similar setList cd resp).Nodup
      ∧ ∀ t ∈ suggest_similar setList cd resp, t ∈ respTitleSeq resp := by
  intro setList hE cd resp
  rcases suggest_similar_cases setList cd resp with h | ⟨qL, ts, res, pt, ps, hr, h1, h2, hq, hc, heq⟩
  · rw [h]
    exact ⟨by simp, by simp⟩
  · obtain ⟨hnd, hmem⟩ := hE ts
    rw [heq]
    refine ⟨List.Nodup.sublist (List.take_sublist _ _) hnd, ?_⟩
    intro t ht
    have h3 : t ∈ ts := (hmem t).1 (List.mem_of_mem_take ht)
    have h4 := (collectTitles_sound qL ps ts hc t h3).2
    subst hr
    simpa [respTitleSeq, h1, h2] using h4

/-- C7 witness (amended claim): concrete instance at the record titled Q and
the response offering A then B. -/
theorem suggest_similar_subset_witness :
    (suggest_similar List.dedup cdQ respAB).Nodup
    ∧ ∀ t ∈ suggest_similar List.dedup cdQ respAB, t ∈ respTitleSeq respAB :=
  suggest_similar_subset List.dedup isSetEnum_dedup cdQ respAB

/-- C9 witness: even the parsable numeric string 18.015 — the shape the
remote property endpoint really returns for MolecularWeight — makes the
fetcher return the empty list without querying. -/
theorem suggest_similar_nonnumeric_witness :
    queryWindow cdChart = none ∧ suggest_similar List.dedup cdChart respAB = [] :=
  suggest_similar_nonnumeric List.dedup cdChart respAB (vStr "18.015") rfl rfl

/-- C3 counterexample: a record whose MolecularWeight value is the truthy
non-numeric string N/A makes the chart coercion raise, because
`float("N/A" or 0)` is `float("N/A")`, a ValueError, and `display_info` has
no try/except around the chart block.  This refutes the claim that the
coercion never raises for non-numeric values. -/
theorem chartValues_counterexample :
    pyGetOr cdNA "MolecularWeight" (vInt 0) = some (vStr "N/A")
    ∧ chartValues cdNA = none :=
  ⟨rfl, rfl⟩

/-- C3 (amended): the chart coercion maps an absent or falsy field value
(absence yields the default 0; None, the empty string and numeric zero are
falsy) to 0 and succeeds whenever every present field value is one that
`float(...)`/`int(...)` accepts (a number, a bool, a parsable numeric
string, or any falsy value); a truthy value those constructors reject — for
example a non-numeric string — makes the coercion raise. -/
theorem chartValues_coerce :
    ∀ (d v1 v2 v3 v4 : PyVal),
      pyGetOr d "MolecularWeight" (vInt 0) = some v1 →
      pyGetOr d "XLogP" (vInt 0) = some v2 →
      pyGetOr d "HBondDonorCount" (vInt 0) = some v3 →
      pyGetOr d "HBondAcceptorCount" (vInt 0) = some v4 →
      (floatCoerce v1).isSome = true → (floatCoerce v2).isSome = true →
      (intCoerce v3).isSome = true → (intCoerce v4).isSome = true →
      ∃ r1 r2 r3 r4, chartValues d = some [r1, r2, r3, r4]
        ∧ (pyTruthy v1 = false → r1 = 0)
        ∧ (pyTruthy v2 = false → r2 = 0)
        ∧ (pyTruthy v3 = false → r3 = 0)
        ∧ (pyTruthy v4 = false → r4 = 0) := by
  intro d v1 v2 v3 v4 h1 h2 h3 h4 c1 c2 c3 c4
  obtain ⟨a1, ha1⟩ := Option.isSome_iff_exists.mp c1
  obtain ⟨a2, ha2⟩ := Option.isSome_iff_exists.mp c2
  obtain ⟨a3, ha3⟩ := Option.isSome_iff_exists.mp c3
  obtain ⟨a4, ha4⟩ := Option.isSome_iff_exists.mp c4
  refine ⟨a1, a2, intToRat a3, intToRat a4,
    by simp [chartValues, h1, h2, h3, h4, ha1, ha2, ha3, ha4], ?_, ?_, ?_, ?_⟩
  · intro hf
    have hz : floatCoerce v1 = some 0 := by
      simp [floatCoerce, pyOr, hf, pyFloat, intToRat_eq]
    rw [ha1] at hz
    exact Option.some.inj hz
  · intro hf
    have hz : floatCoerce v2 = some 0 := by
      simp [floatCoerce, pyOr, hf, pyFloat, intToRat_eq]
    rw [ha2] at hz
    exact Option.some.inj hz
  · intro hf
    have hz : intCoerce v3 = some 0 := by
      simp [intCoerce, pyOr, hf, pyInt]
    rw [ha3] at hz
    have : a3 = 0 := Option.some.inj hz
    simp [this, intToRat_eq]
  · intro hf
    have hz : intCoerce v4 = some 0 := by
      simp [intCoerce, pyOr, hf, pyInt]
    rw [ha4] at hz
    have : a4 = 0 := Option.some.inj hz
    simp [this, intToRat_eq]

/-- C3 witness (amended claim): the record with the numeric-string weight
18.015, a None XLogP and both counts absent yields four values, with the
falsy and absent fields coerced to 0. -/
theorem chartValues_coerce_witness :
    ∃ r1 r2 r3 r4, chartValues cdChart = some [r1, r2, r3, r4]
      ∧ (pyTruthy (vStr "18.015") = false → r1 = 0)
      ∧ (pyTruthy vNone = false → r2 = 0)
      ∧ (pyTruthy (vInt 0) = false → r3 = 0)
      ∧ (pyTruthy (vInt 0) = false → r4 = 0) :=
  chartValues_coerce cdChart (vStr "18.015") vNone (vInt 0) (vInt 0) rfl rfl rfl rfl
    (by decide) (by decide) (by decide) (by decide)

theorem scanSections_fallback :
    ∀ l : List PyVal,
      (∀ s ∈ l, isSafetySection s = true → hasEmptyInfo s = true) →
      scanSections l = none ∨ scanSections l = some (vStr fallbackMsg) := by
  intro l
  induction l with
  | nil => intro _; right; rfl
  | cons s rest ih =>
    intro hall
    have hrest := ih (fun t ht => hall t (List.mem_cons_of_mem _ ht))
    rcases hstep : sectionStep s with _ | o
    · left; simp [scanSections, hstep]
    · cases o with
      | none =>
        have heq : scanSections (s :: rest) = scanSections rest := by
          simp [scanSections, hstep]
        rw [heq]
        exact hrest
      | some v =>
        exfalso
        have hs0 := hall s (List.mem_cons_self _ _)
        simp only [sectionStep] at hstep
        split at hstep
        · simp at hstep
        · rename_i h heq
          split at hstep
          · rename_i hcond
            have hsec : isSafetySection s = true := by
              simp [isSafetySection, heq, hcond]
            have hemp := hs0 hsec
            have hinfo : pyGetOr s "Information" (vArr []) = some (vArr []) := by
              simp only [hasEmptyInfo] at hemp
              split at hemp
              · rename_i heq2
                exact heq2
              · simp at hemp
            rw [hinfo] at hstep
            simp [pyTruthy] at hstep
          · simp at hstep

/-- C4: `fetch_safety_info` returns exactly the fixed fallback string
whenever the CID request fails, whenever the CID extraction fails, whenever
the hazard-document request fails, and whenever the document's section list
contains no section labeled Safety and Hazards whose Information list is
nonempty (so in particular when there is no such section at all, and when
the — in practice unique — labeled section has an empty Information
list). -/
theorem fetch_safety_info_fallback :
    ∀ (cidResp sResp : Except Unit PyVal),
      (cidResp = .error () → fetch_safety_info cidResp sResp = vStr fallbackMsg)
      ∧ (∀ cd, cidResp = .ok cd → extractCid cd = none →
          fetch_safety_info cidResp sResp = vStr fallbackMsg)
      ∧ (sResp = .error () → fetch_safety_info cidResp sResp = vStr fallbackMsg)
      ∧ (∀ sd l, sResp = .ok sd → sectionsOf sd = some (vArr l) →
          (∀ s ∈ l, isSafetySection s = true → hasEmptyInfo s = true) →
          fetch_safety_info cidResp sResp = vStr fallbackMsg) := by
  intro cidResp sResp
  refine ⟨?_, ?_, ?_, ?_⟩
  · rintro rfl; rfl
  · rintro cd rfl h
    simp [fetch_safety_info, h]
  · rintro rfl
    cases cidResp with
    | error e => rfl
    | ok cd =>
      rcases hc : extractCid cd with _ | c
      · simp [fetch_safety_info, hc]
      · simp [fetch_safety_info, hc]
  · rintro sd l rfl hsec hall
    cases cidResp with
    | error e => rfl
    | ok cd =>
      rcases hc : extractCid cd with _ | c
      · simp [fetch_safety_info, hc]
      · rcases scanSections_fallback l hall with h | h
        · simp [fetch_safety_info, hc, hsec, h]
        · simp [fetch_safety_info, hc, hsec, h]

/-- C4 witness: a document with one non-matching section and one labeled
section with an empty Information list yields the fallback string. -/
theorem fetch_safety_info_fallback_witness :
    fetch_safety_info (.ok cidOk) (.ok sdNoData) = vStr fallbackMsg :=
  (fetch_safety_info_fallback (.ok cidOk) (.ok sdNoData)).2.2.2 sdNoData [sOther, sNoInfo]
    rfl rfl (by decide)

/-- C6 counterexample: in the document `sdTwoSections` the FIRST section
labeled Safety and Hazards is `sNoInfo`, whose Information list is empty,
yet the fetcher returns the string Flammable taken from the LATER labeled
section — the loop does not stop at the first labeled section, so the scan
is not restricted to the first qualifying entry of the first labeled
section.  This refutes the claim as stated. -/
theorem safety_scan_counterexample :
    List.find? isSafetySection [sNoInfo, sFlammable] = some sNoInfo
    ∧ hasEmptyInfo sNoInfo = true
    ∧ fetch_safety_info (.ok cidOk) (.ok sdTwoSections) = vStr "Flammable"
    ∧ vStr "Flammable" ≠ vStr fallbackMsg := by
  refine ⟨rfl, rfl, rfl, ?_⟩
  intro h
  injection h with h2
  exact absurd h2 (by decide)

/-- C6 (amended): the scan is first-match over whole sections, not over the
first labeled section only: sections whose step yields nothing (wrong
heading, empty Information, or an empty first markup list) are skipped and
the scan continues with the LATER sections; within each section only the
first information entry is ever consulted — appending further entries after
the first changes nothing. -/
theorem scan_first_match :
    (∀ pre s post, (∀ t ∈ pre, sectionStep t = some none) →
        scanSections (pre ++ s :: post)
          = match sectionStep s with
            | none => none
            | some (some v) => some v
            | some none => scanSections post)
    ∧ (∀ h e0 rest,
        sectionStep (vObj [("TOCHeading", h), ("Information", vArr (e0 :: rest))])
          = sectionStep (vObj [("TOCHeading", h), ("Information", vArr [e0])])) := by
  constructor
  · intro pre
    induction pre with
    | nil =>
      intro s post _
      rfl
    | cons t pre ih =>
      intro s post hall
      have ht : sectionStep t = some none := hall t (List.mem_cons_self _ _)
      have heq : scanSections ((t :: pre) ++ s :: post) = scanSections (pre ++ s :: post) := by
        simp [scanSections, ht]
      rw [heq]
      exact ih s post (fun u hu => hall u (List.mem_cons_of_mem _ hu))
  · intro h e0 rest
    cases hpe : pyEqStr h "Safety and Hazards" with
    | false => simp [sectionStep, pyGetOr, List.lookup, hpe]
    | true => simp [sectionStep, pyGetOr, List.lookup, hpe, pyTruthy, pyIndex]

/-- C6 witness (amended claim): a non-matching section is skipped and the
next one answers; a second information entry is ignored. -/
theorem scan_first_match_witness :
    scanSections [sOther, sFlammable] = some (vStr "Flammable")
    ∧ sectionStep (vObj [("TOCHeading", vStr "Safety and Hazards"),
        ("Information", vArr [infoFlammable, infoIgnored])])
      = sectionStep (vObj [("TOCHeading", vStr "Safety and Hazards"),
        ("Information", vArr [infoFlammable])]) :=
  ⟨scan_first_match.1 [sOther] sFlammable []
      (by
        intro t ht
        rw [List.mem_singleton] at ht
        subst ht
        rfl),
    scan_first_match.2 (vStr "Safety and Hazards") infoFlammable [infoIgnored]⟩

theorem errHtml_ne_viewer (e : String) (cfg : ViewerConfig) :
    errHtml e ≠ makeViewerHtml cfg := by
  intro hcontra
  have h1 : (errHtml e).data[5]? = some 's' := by
    show (errPre ++ (e ++ errPost)).data[5]? = some 's'
    rw [String.data_append, List.getElem?_append_left (by decide)]
    decide
  have h2 : (makeViewerHtml cfg).data[5]? = some 'i' := by
    show (viewerPre ++ _).data[5]? = some 'i'
    rw [String.data_append, List.getElem?_append_left (by decide)]
    decide
  rw [hcontra] at h1
  rw [h1] at h2
  exact absurd (Option.some.inj h2) (by decide)

/-- C8: whenever any step of `render_3d` fails — name-to-CID request, CID
extraction, SDF download, or viewer construction, i.e. whenever the `try`
body raises with detail `e` — the returned markup is exactly the red error
fragment with the literal detail string `e` embedded in it (an infix of the
markup), and this markup differs from the viewer markup of every
configuration; on success the returned markup is the viewer markup for the
downloaded SDF with stick style, zoom to fit and spin on. -/
theorem render_3d_markup :
    ∀ (cidResp : Except String PyVal) (sdfResp : Except String String)
      (viewerErr : Option String),
      (∀ e, render3dBody cidResp sdfResp viewerErr = .error e →
        render_3d cidResp sdfResp viewerErr = errPre ++ (e ++ errPost)
        ∧ e.data <:+: (render_3d cidResp sdfResp viewerErr).data
        ∧ ∀ cfg : ViewerConfig, render_3d cidResp sdfResp viewerErr ≠ makeViewerHtml cfg)
      ∧ (∀ html, render3dBody cidResp sdfResp viewerErr = .ok html →
        render_3d cidResp sdfResp viewerErr = html
        ∧ ∃ sdf, sdfResp = .ok sdf
            ∧ html = makeViewerHtml ⟨400, 400, sdf, "sdf", true, true, true⟩) := by
  intro cidResp sdfResp viewerErr
  constructor
  · intro e he
    have hr : render_3d cidResp sdfResp viewerErr = errHtml e := by
      simp [render_3d, he]
    refine ⟨hr, ?_, ?_⟩
    · rw [hr]
      show e.data <:+: (errPre ++ (e ++ errPost)).data
      rw [String.data_append, String.data_append]
      exact ⟨errPre.data, errPost.data, by simp⟩
    · intro cfg
      rw [hr]
      exact errHtml_ne_viewer e cfg
  · intro html hh
    have hr : render_3d cidResp sdfResp viewerErr = html := by
      simp [render_3d, hh]
    refine ⟨hr, ?_⟩
    simp only [render3dBody] at hh
    split at hh
    · cases hh
    · split at hh
      · cases hh
      · split at hh
        · cases hh
        · rename_i sdf
          split at hh
          · cases hh
          · injection hh with hh2
            exact ⟨sdf, rfl, hh2.symm⟩

/-- C8 witness: a failed CID request with detail boom yields the error
fragment containing boom. -/
theorem render_3d_markup_witness :
    render_3d (.error "boom") (.ok "SDFDATA") none = errPre ++ ("boom" ++ errPost) :=
  ((render_3d_markup (.error "boom") (.ok "SDFDATA") none).1 "boom" rfl).1

end MolExplorer
